import Mathlib

/-!
Shallow embedding of `src/inspircd-auth-gate-generator.py`.

The script performs one run: fetch a plaintext IP/CIDR list over HTTP,
split the body into lines, build an allow-block and a deny-block, and
write a comment header plus the two blocks to a file or to standard
output.  Each stage below is a Lean definition mirroring the
corresponding lines of `main`; the outer world (HTTP status, response
body, the drawn UUID, the command-line parameters) enters as explicit
arguments.
-/

namespace InspircdAuthGate

/-- Line splitting as performed by `list(res.iter_lines(decode_unicode=True))`
on a single chunk, which coincides with Python `str.splitlines` on the decoded
body: a line ends at `\n`, `\r\n` or `\r` (the terminators occurring in
plaintext lists); terminators are stripped; a terminator at the very end of the
body does not open a trailing empty line, while every other line — including an
empty line sitting between two terminators — is produced.  The first argument
holds the characters of the current line in reverse. -/
def splitLinesGo : List Char → List Char → List String
  | acc, [] => if acc = [] then [] else [String.mk acc.reverse]
  | acc, '\r' :: '\n' :: rest => String.mk acc.reverse :: splitLinesGo [] rest
  | acc, '\r' :: rest => String.mk acc.reverse :: splitLinesGo [] rest
  | acc, '\n' :: rest => String.mk acc.reverse :: splitLinesGo [] rest
  | acc, c :: rest => splitLinesGo (c :: acc) rest

/-- Line 71 of the source: `ip_addresses = list(res.iter_lines(decode_unicode=True))`. -/
def iter_lines (body : String) : List String :=
  splitLinesGo [] body.data

/-- One allow entry line without its terminating newline: `    allow="<ip>"`. -/
def allowLine (ip : String) : String :=
  "    allow=\"" ++ ip ++ "\""

/-- One deny entry line without its terminating newline: `    deny="<ip>"`. -/
def denyLine (ip : String) : String :=
  "    deny=\"" ++ ip ++ "\""

/-- The allow entry lines of a list of addresses, in input order. -/
def allowLines (ips : List String) : List String :=
  ips.map allowLine

/-- The deny entry lines of a list of addresses, in input order. -/
def denyLines (ips : List String) : List String :=
  ips.map denyLine

/-- The loop of lines 86-93 of the source, restricted to the `allow` string it
accumulates: every entry but the last is followed by a newline, the last is
not. -/
def buildAllow : List String → String
  | [] => ""
  | [ip] => "    allow=\"" ++ ip ++ "\""
  | ip :: ip2 :: rest => "    allow=\"" ++ ip ++ "\"\n" ++ buildAllow (ip2 :: rest)

/-- The loop of lines 86-93 of the source, restricted to the `deny` string it
accumulates. -/
def buildDeny : List String → String
  | [] => ""
  | [ip] => "    deny=\"" ++ ip ++ "\""
  | ip :: ip2 :: rest => "    deny=\"" ++ ip ++ "\"\n" ++ buildDeny (ip2 :: rest)

/-- Newline-joining with no newline after the last element; the spec's
"newline-joined, with no trailing newline after the last entry". -/
def joinLines : List String → String
  | [] => ""
  | [l] => l
  | l :: l2 :: rest => l ++ "\n" ++ joinLines (l2 :: rest)

/-- Line 75 of the source: `class_name = f"auth-gate-{uuid.uuid4()}"`, with the
drawn UUID string passed in as `u`. -/
def class_name (u : String) : String :=
  "auth-gate-" ++ u

/-- Line 107 of the source: the allow-block f-string, with the class name, the
parent class and the accumulated `allow` string as arguments. -/
def allow_block (cname parentArg allowStr : String) : String :=
  "<connect name=\"" ++ cname ++ "\"\n" ++ allowStr
    ++ "\n    registered=\"true\"\n    requireaccount=\"yes\"\n    parent=\""
    ++ parentArg ++ "\">"

/-- Lines 108-110 of the source: the deny-block f-string, with the message and
the accumulated `deny` string as arguments. -/
def deny_block (messageArg denyStr : String) : String :=
  "<connect\n" ++ denyStr ++ "\n    registered=\"true\"\n    reason=\""
    ++ messageArg ++ "\">"

/-- The two blocks a run renders from a fetched body, a drawn UUID, and the
parent/message parameters (lines 71, 75, 86-93, 107-110 of the source). -/
def renderedBlocks (body u parentArg messageArg : String) : String × String :=
  (allow_block (class_name u) parentArg (buildAllow (iter_lines body)),
   deny_block messageArg (buildDeny (iter_lines body)))

/-- Line 115 of the source: the fixed comment header, newline included. -/
def header_comment : String :=
  "# Authentication gate configuration auto-generated by inspircd-auth-gate-generator.py\n"

/-- The five `f.write` calls of lines 113-120, in program order. -/
def writes (ips : List String) (u parentArg messageArg : String) : List String :=
  [header_comment,
   allow_block (class_name u) parentArg (buildAllow ips),
   "\n",
   deny_block messageArg (buildDeny ips),
   "\n"]

/-- The complete text a run emits: the concatenation of the five writes. -/
def emittedText (ips : List String) (u parentArg messageArg : String) : String :=
  String.join (writes ips u parentArg messageArg)

/-- Where the emitted text goes: a file path opened with mode `w` (truncating
any existing content) and encoding `utf8`, or the standard output stream. -/
inductive Dest where
  | file (path : String)
  | standardOut

/-- Line 112-113 of the source: `use_file = len(args.output) != 0`; a non-empty
`output` argument selects the file, an empty one selects standard output. -/
def destOf (outputArg : String) : Dest :=
  if outputArg.length ≠ 0 then Dest.file outputArg else Dest.standardOut

/-- Observable outcome of one run: the lines printed to the error stream, the
destination of the rendered text, and the rendered text itself. -/
structure RunResult where
  errLines : List String
  dest : Dest
  text : String

/-- The whole of `main` after the fetch, as a function of the response status,
the decoded response body, the drawn UUID and the parameters.  Lines 66-68 of
the source print a fixed diagnostic and the response body to stderr when the
status is not 200, and the run continues unconditionally. -/
def runGenerator (status : Nat) (body u messageArg outputArg parentArg : String) :
    RunResult :=
  ⟨if status ≠ 200 then ["URL request did not return OK status", body] else [],
   destOf outputArg,
   emittedText (iter_lines body) u parentArg messageArg⟩

/-- Modelled from the spec: the spec's "one per non-empty line of the fetched
body" — the lines of the body with the empty ones removed.  Used only to
compare the spec's wording with what the code computes. -/
def specNonEmptyLines (body : String) : List String :=
  (iter_lines body).filter (fun l => l ≠ "")

/-- The `allow` string the loop accumulates is the allow entry lines of the
input, newline-joined without a trailing newline. -/
theorem buildAllow_eq_joinLines : ∀ ips : List String, buildAllow ips = joinLines (allowLines ips)
  | [] => rfl
  | [ip] => rfl
  | ip :: ip2 :: rest => by
      have ih := buildAllow_eq_joinLines (ip2 :: rest)
      apply String.ext
      simp only [buildAllow, allowLines, allowLine, List.map, joinLines, ih,
        String.data_append, List.append_assoc]
      rfl

/-- The `deny` string the loop accumulates is the deny entry lines of the
input, newline-joined without a trailing newline. -/
theorem buildDeny_eq_joinLines : ∀ ips : List String, buildDeny ips = joinLines (denyLines ips)
  | [] => rfl
  | [ip] => rfl
  | ip :: ip2 :: rest => by
      have ih := buildDeny_eq_joinLines (ip2 :: rest)
      apply String.ext
      simp only [buildDeny, denyLines, denyLine, List.map, joinLines, ih,
        String.data_append, List.append_assoc]
      rfl

/-- A string of length zero is the empty string. -/
theorem string_length_zero (s : String) : s.length = 0 → s = "" := by
  intro h
  cases s with
  | mk d =>
    cases d with
    | nil => rfl
    | cons c cs => simp [String.length] at h

/-- Claim C1: for every non-empty list of fetched entries, the rendered
allow-block is the header line carrying the name `auth-gate-<id>`, followed by
one four-space-indented `allow="<entry>"` line per entry, newline-joined with
no trailing newline after the last entry, followed by the
`registered`/`requireaccount`/`parent` footer lines; in particular, for the
entries `1.2.3.4/32` and `5.6.7.8/24` with parent `main` it is exactly the
spec's template. -/
theorem allow_block_format (ips : List String) (u parentArg : String) (h : ips ≠ []) :
    allow_block (class_name u) parentArg (buildAllow ips)
      = "<connect name=\"" ++ ("auth-gate-" ++ u) ++ "\"\n"
        ++ joinLines (allowLines ips)
        ++ "\n    registered=\"true\"\n    requireaccount=\"yes\"\n    parent=\""
        ++ parentArg ++ "\">"
    ∧ allow_block (class_name u) "main" (buildAllow ["1.2.3.4/32", "5.6.7.8/24"])
      = "<connect name=\"auth-gate-" ++ u
        ++ "\"\n    allow=\"1.2.3.4/32\"\n    allow=\"5.6.7.8/24\"\n    registered=\"true\"\n    requireaccount=\"yes\"\n    parent=\"main\">" := by
  constructor
  · rw [buildAllow_eq_joinLines]
    apply String.ext
    simp only [allow_block, class_name, String.data_append, List.append_assoc]
  · apply String.ext
    simp only [allow_block, class_name, String.data_append, List.append_assoc]
    rfl

/-- Witness for C1 at the spec's example list and a concrete identifier. -/
theorem allow_block_format_witness :
    allow_block (class_name "73494747-e19e-4cdf-bc3b-c0f5b94af2e2") "main"
        (buildAllow ["1.2.3.4/32", "5.6.7.8/24"])
      = "<connect name=\"auth-gate-73494747-e19e-4cdf-bc3b-c0f5b94af2e2\"\n    allow=\"1.2.3.4/32\"\n    allow=\"5.6.7.8/24\"\n    registered=\"true\"\n    requireaccount=\"yes\"\n    parent=\"main\">" :=
  (allow_block_format ["1.2.3.4/32", "5.6.7.8/24"]
    "73494747-e19e-4cdf-bc3b-c0f5b94af2e2" "main" (by decide)).2

/-- Claim C2: for every non-empty list of fetched entries, the rendered
deny-block is the bare `<connect` header line, one indented `deny="<entry>"`
line per entry newline-joined with no trailing newline, then the
`registered`/`reason` footer lines, the message inserted verbatim with no
escaping of embedded quote characters; in particular, for the spec's example
list and message it is exactly the spec's template, and a message holding a
literal quote character is embedded unescaped. -/
theorem deny_block_format (ips : List String) (messageArg : String) (h : ips ≠ []) :
    deny_block messageArg (buildDeny ips)
      = "<connect\n" ++ joinLines (denyLines ips)
        ++ "\n    registered=\"true\"\n    reason=\"" ++ messageArg ++ "\">"
    ∧ deny_block "Identify please" (buildDeny ["1.2.3.4/32", "5.6.7.8/24"])
      = "<connect\n    deny=\"1.2.3.4/32\"\n    deny=\"5.6.7.8/24\"\n    registered=\"true\"\n    reason=\"Identify please\">"
    ∧ deny_block "say \"hi\"" (buildDeny ["1.2.3.4/32"])
      = "<connect\n    deny=\"1.2.3.4/32\"\n    registered=\"true\"\n    reason=\"say \"hi\"\">" := by
  refine ⟨?_, by decide, by decide⟩
  rw [buildDeny_eq_joinLines]
  apply String.ext
  simp only [deny_block, String.data_append, List.append_assoc]

/-- Witness for C2 at the spec's example list and message. -/
theorem deny_block_format_witness :
    deny_block "Identify please" (buildDeny ["1.2.3.4/32", "5.6.7.8/24"])
      = "<connect\n    deny=\"1.2.3.4/32\"\n    deny=\"5.6.7.8/24\"\n    registered=\"true\"\n    reason=\"Identify please\">" :=
  (deny_block_format ["1.2.3.4/32", "5.6.7.8/24"] "Identify please" (by decide)).2.1

/-- Claim C3 (amended): the IP list is one string per line of the fetched body
under Python splitlines semantics — a terminator ending the body opens no
trailing entry, but empty lines elsewhere do yield empty-string entries — and
for a body splitting into N lines the allow and deny strings carry exactly N
entry lines, in body order. -/
theorem ip_list_lines (body : String) :
    buildAllow (iter_lines body) = joinLines (allowLines (iter_lines body))
    ∧ buildDeny (iter_lines body) = joinLines (denyLines (iter_lines body))
    ∧ (allowLines (iter_lines body)).length = (iter_lines body).length
    ∧ (denyLines (iter_lines body)).length = (iter_lines body).length :=
  ⟨buildAllow_eq_joinLines _, buildDeny_eq_joinLines _,
   List.length_map _ _, List.length_map _ _⟩

/-- Counterexample to C3 as stated: a body with an empty line between two
entries yields three list entries, not one per non-empty line, and the allow
string contains a third line `allow=""`. -/
theorem ip_list_nonempty_counterexample :
    iter_lines "1.2.3.4/32\n\n5.6.7.8/24\n" = ["1.2.3.4/32", "", "5.6.7.8/24"]
    ∧ specNonEmptyLines "1.2.3.4/32\n\n5.6.7.8/24\n" = ["1.2.3.4/32", "5.6.7.8/24"]
    ∧ iter_lines "1.2.3.4/32\n\n5.6.7.8/24\n" ≠ specNonEmptyLines "1.2.3.4/32\n\n5.6.7.8/24\n"
    ∧ buildAllow (iter_lines "1.2.3.4/32\n\n5.6.7.8/24\n")
        = "    allow=\"1.2.3.4/32\"\n    allow=\"\"\n    allow=\"5.6.7.8/24\"" := by
  decide

/-- Claim C4 (amended): an empty fetched list still produces blocks with zero
allow/deny entry lines, but each block carries one blank line between its
header line and its footer lines, because the empty entries string keeps its
surrounding template newlines. -/
theorem empty_list_blocks (u parentArg messageArg : String) :
    allow_block (class_name u) parentArg (buildAllow [])
      = "<connect name=\"" ++ ("auth-gate-" ++ u)
        ++ "\"\n\n    registered=\"true\"\n    requireaccount=\"yes\"\n    parent=\""
        ++ parentArg ++ "\">"
    ∧ deny_block messageArg (buildDeny [])
      = "<connect\n\n    registered=\"true\"\n    reason=\"" ++ messageArg ++ "\">" := by
  constructor
  · apply String.ext
    simp only [allow_block, class_name, buildAllow, String.data_append, List.append_assoc]
    rfl
  · apply String.ext
    simp only [deny_block, buildDeny, String.data_append, List.append_assoc]
    rfl

/-- Counterexample to C4 as stated: with an empty list the allow-block is not
the header line directly followed by the footer lines — an extra blank line
stands where the entries would be. -/
theorem empty_list_counterexample :
    allow_block (class_name "u0") "main" (buildAllow [])
      = "<connect name=\"auth-gate-u0\"\n\n    registered=\"true\"\n    requireaccount=\"yes\"\n    parent=\"main\">"
    ∧ allow_block (class_name "u0") "main" (buildAllow [])
      ≠ "<connect name=\"auth-gate-u0\"\n    registered=\"true\"\n    requireaccount=\"yes\"\n    parent=\"main\">" := by
  decide

/-- Claim C5: the complete emitted text of a run is exactly the fixed comment
header line (ending in a newline), then the allow-block, a single newline, the
deny-block, and a trailing newline, in that order with nothing else. -/
theorem emitted_concatenation (status : Nat) (body u messageArg outputArg parentArg : String) :
    (runGenerator status body u messageArg outputArg parentArg).text
      = header_comment
        ++ allow_block (class_name u) parentArg (buildAllow (iter_lines body))
        ++ "\n"
        ++ deny_block messageArg (buildDeny (iter_lines body))
        ++ "\n"
    ∧ header_comment
      = "# Authentication gate configuration auto-generated by inspircd-auth-gate-generator.py" ++ "\n" := by
  constructor
  · apply String.ext
    simp only [runGenerator, emittedText, writes, String.join, List.foldl,
      String.data_append, List.append_assoc]
    rfl
  · rfl

/-- Claim C6: the rendered text of a run is exactly the emitted text, and it is
routed to the file named by a non-empty output parameter (opened for
truncating write) or to standard output when the output parameter is empty —
never both. -/
theorem output_routing (status : Nat) (body u messageArg outputArg parentArg : String) :
    (runGenerator status body u messageArg outputArg parentArg).text
      = emittedText (iter_lines body) u parentArg messageArg
    ∧ (outputArg ≠ ""
        → (runGenerator status body u messageArg outputArg parentArg).dest = Dest.file outputArg)
    ∧ (outputArg = ""
        → (runGenerator status body u messageArg outputArg parentArg).dest = Dest.standardOut) := by
  refine ⟨rfl, ?_, ?_⟩
  · intro h
    show destOf outputArg = Dest.file outputArg
    rw [destOf, if_pos]
    intro hlen
    exact h (string_length_zero outputArg hlen)
  · intro h
    subst h
    rfl

/-- Witness for C6: a non-empty output path routes to that file, an empty one
to standard output. -/
theorem output_routing_witness :
    (runGenerator 200 "1.2.3.4/32" "u0" "msg" "gate.conf" "main").dest = Dest.file "gate.conf"
    ∧ (runGenerator 200 "1.2.3.4/32" "u0" "msg" "" "main").dest = Dest.standardOut :=
  ⟨(output_routing 200 "1.2.3.4/32" "u0" "msg" "gate.conf" "main").2.1 (by decide),
   (output_routing 200 "1.2.3.4/32" "u0" "msg" "" "main").2.2 rfl⟩

/-- Claim C7 (amended): for every response status other than 200 the run prints
the fixed diagnostic `URL request did not return OK status` — the numeric
status code itself is not part of the report — followed by the response body,
to the error stream, and still renders its output from whatever body was
returned instead of aborting. -/
theorem non200_lenient (status : Nat) (body u messageArg outputArg parentArg : String)
    (h : status ≠ 200) :
    (runGenerator status body u messageArg outputArg parentArg).errLines
      = ["URL request did not return OK status", body]
    ∧ (runGenerator status body u messageArg outputArg parentArg).text
      = emittedText (iter_lines body) u parentArg messageArg :=
  ⟨by simp [runGenerator, h], rfl⟩

/-- Witness for C7 at status 404 with an HTML error page as body. -/
theorem non200_lenient_witness :
    (runGenerator 404 "<html>error</html>" "u0" "msg" "" "main").errLines
      = ["URL request did not return OK status", "<html>error</html>"] :=
  (non200_lenient 404 "<html>error</html>" "u0" "msg" "" "main" (by decide)).1

/-- Counterexample to C7 as stated: at status 404 the error stream holds only
the fixed diagnostic and the body; the digits of the status code appear
nowhere in it, so the status itself is not reported. -/
theorem non200_status_counterexample :
    (runGenerator 404 "1.2.3.4/32" "u0" "msg" "" "main").errLines
      = ["URL request did not return OK status", "1.2.3.4/32"]
    ∧ ∀ line ∈ (runGenerator 404 "1.2.3.4/32" "u0" "msg" "" "main").errLines,
        ¬ "404".data <:+: line.data := by
  decide

/-- Claim C8: a run names its allow-block by concatenating the fixed text
`auth-gate-` with the single identifier it drew, so any two runs whose drawn
identifiers differ — which is what the freshness of the generated UUID
provides — carry distinct block names, whatever their other inputs. -/
theorem distinct_class_names (u1 u2 : String) (h : u1 ≠ u2) :
    class_name u1 = "auth-gate-" ++ u1
    ∧ class_name u1 ≠ class_name u2 := by
  refine ⟨rfl, ?_⟩
  intro he
  apply h
  have hd := congrArg String.data he
  simp only [class_name, String.data_append] at hd
  exact String.ext (List.append_cancel_left hd)

/-- Witness for C8 at two concrete distinct identifiers. -/
theorem distinct_class_names_witness :
    class_name "73494747-e19e-4cdf-bc3b-c0f5b94af2e2"
      ≠ class_name "9b2c2f66-1111-4444-8888-abcdefabcdef" :=
  (distinct_class_names "73494747-e19e-4cdf-bc3b-c0f5b94af2e2"
    "9b2c2f66-1111-4444-8888-abcdefabcdef" (by decide)).2

/-- Claim C9: the allow string and the deny string enumerate the same entries
in the same order — the i-th allow line and the i-th deny line both quote the
i-th input entry, differing only in their keyword. -/
theorem allow_deny_parallel (ips : List String) :
    buildAllow ips = joinLines (allowLines ips)
    ∧ buildDeny ips = joinLines (denyLines ips)
    ∧ (denyLines ips).length = (allowLines ips).length
    ∧ ∀ i : Nat, (allowLines ips)[i]? = Option.map allowLine ips[i]?
        ∧ (denyLines ips)[i]? = Option.map denyLine ips[i]? := by
  refine ⟨buildAllow_eq_joinLines _, buildDeny_eq_joinLines _,
    by simp [allowLines, denyLines], ?_⟩
  intro i
  simp [allowLines, denyLines, List.getElem?_map]

/-- Claim C10: the rendered allow-block does not depend on the message
parameter and the rendered deny-block does not depend on the parent parameter:
with the same body and identifier, varying only the message leaves the
allow-block unchanged, and varying only the parent leaves the deny-block
unchanged. -/
theorem block_independence (body u parentArg m1 m2 p1 p2 messageArg : String) :
    (renderedBlocks body u parentArg m1).1 = (renderedBlocks body u parentArg m2).1
    ∧ (renderedBlocks body u p1 messageArg).2 = (renderedBlocks body u p2 messageArg).2 :=
  ⟨rfl, rfl⟩

end InspircdAuthGate
